import Mathlib

/-!
Verification of the statistical-scoring kernels of `libs/score_utils.py`:
the CRPS / Brier-Score family (`CRPS_1d`, `CRPS_2d`, `CRPS_1d_nan`,
`CRPS_1d_from_quantiles`, `BS_binary_1d`, `BS_binary_1d_nan`) and the
bootstrap resampling engine (`score_bootstrap_1d`,
`bootstrap_confidence_intervals` / `bootstrap_core`).

Modelling conventions:
* IEEE floating-point numbers carrying data are modelled by exact rationals
  extended with a missing-value marker: `Val` is either `nan` or `num q`
  with `q : ℚ`.  Arithmetic on `Val` propagates `nan`, as IEEE NaN does.
* A numpy array of shape `(d1, d2, ...)` is modelled as a total function
  `ℕ → ℕ → ... → Val` (or `... → ℚ` where the kernel under study never
  receives NaN there) together with the explicit sizes; cells outside the
  allocated index ranges are `nan`, matching the `np.empty`/`np.nan`
  initialisation of the outputs.
* `np.random.choice` / `np.random.randint` draws are modelled by an
  explicit oracle function; a draw "uniform on `[0, n)`" is the oracle
  value reduced `% n`, so every draw is in range exactly as numpy
  guarantees.
-/

/-- A floating-point value: either NaN (missing) or a finite rational. -/
inductive Val where
  | nan : Val
  | num (q : ℚ) : Val
deriving DecidableEq, Repr

namespace Val

/-- NaN-propagating addition. -/
def vAdd : Val → Val → Val
  | num a, num b => num (a + b)
  | _, _ => nan

/-- NaN-propagating subtraction. -/
def vSub : Val → Val → Val
  | num a, num b => num (a - b)
  | _, _ => nan

/-- NaN-propagating absolute value. -/
def vAbs : Val → Val
  | num a => num |a|
  | nan => nan

/-- NaN-propagating squaring (`x**2`). -/
def vSq : Val → Val
  | num a => num (a ^ 2)
  | nan => nan

/-- Division of a value by a natural count.  Division by zero yields NaN
(the value observed for the `0 / 0` produced by `np.mean` on an empty
axis); nonzero counts give exact rational division. -/
def vDivN (v : Val) (m : ℕ) : Val :=
  match v with
  | num a => if m = 0 then nan else num (a / m)
  | nan => nan

/-- `np.isnan`. -/
def isnan : Val → Bool
  | nan => true
  | num _ => false

instance : Zero Val := ⟨num 0⟩

instance : Add Val := ⟨vAdd⟩

instance : AddCommMonoid Val where
  add_assoc a b c := by
    show vAdd (vAdd a b) c = vAdd a (vAdd b c)
    cases a <;> cases b <;> cases c <;> simp [vAdd] <;> ring
  zero_add a := by
    show vAdd (num 0) a = a
    cases a <;> simp [vAdd]
  add_zero a := by
    show vAdd a (num 0) = a
    cases a <;> simp [vAdd]
  add_comm a b := by
    show vAdd a b = vAdd b a
    cases a <;> cases b <;> simp [vAdd] <;> ring
  nsmul := nsmulRec

end Val

open Val

/-- Sum of a list of values, as the `+=` accumulation loop of the kernels
performs it (left fold starting from the integer literal `0`). -/
def vListSum (l : List Val) : Val := l.foldl (· + ·) 0

/-- `np.mean` over a 1-D slice: sum divided by length (NaN on an empty
slice, as numpy returns). -/
def npMean (l : List Val) : Val := vDivN (vListSum l) l.length

/-- The SPREAD normalisation constant `M = 2*EN*EN` of the pairwise
kernels. -/
def spread_norm (EN : ℕ) : ℕ := 2 * EN * EN

/-- `CRPS_1d(y_true, y_ens)` of `score_utils.py`.  `y_true` has shape
`(N_day, N_grids)`, `y_ens` has shape `(N_day, EN, N_grids)`; the three
outputs `(CRPS, MAE, SPREAD)` have shape `(N_day, N_grids)` and are
`nan`-initialised, so out-of-range cells are `nan`. -/
def CRPS_1d (N_day EN N_grids : ℕ) (y_true : ℕ → ℕ → Val)
    (y_ens : ℕ → ℕ → ℕ → Val) :
    (ℕ → ℕ → Val) × (ℕ → ℕ → Val) × (ℕ → ℕ → Val) :=
  let M := spread_norm EN
  let MAE : ℕ → ℕ → Val := fun day n =>
    if day < N_day ∧ n < N_grids then
      npMean ((List.range EN).map fun en => vAbs (vSub (y_true day n) (y_ens day en n)))
    else Val.nan
  let SPREAD : ℕ → ℕ → Val := fun day n =>
    if day < N_day ∧ n < N_grids then
      vDivN ((List.range EN).foldl (fun acc en1 =>
        (List.range EN).foldl (fun acc2 en2 =>
          acc2 + vAbs (vSub (y_ens day en1 n) (y_ens day en2 n))) acc) 0) M
    else Val.nan
  let CRPS : ℕ → ℕ → Val := fun day n => vSub (MAE day n) (SPREAD day n)
  (CRPS, MAE, SPREAD)

/-- `CRPS_1d_nan(y_true, y_ens)` of `score_utils.py`: identical to
`CRPS_1d` except that a cell whose observation is NaN gets `nan` MAE and
SPREAD directly, its computation branch being skipped. -/
def CRPS_1d_nan (N_day EN N_grids : ℕ) (y_true : ℕ → ℕ → Val)
    (y_ens : ℕ → ℕ → ℕ → Val) :
    (ℕ → ℕ → Val) × (ℕ → ℕ → Val) × (ℕ → ℕ → Val) :=
  let M := spread_norm EN
  let MAE : ℕ → ℕ → Val := fun day n =>
    if day < N_day ∧ n < N_grids then
      if (y_true day n).isnan then Val.nan
      else npMean ((List.range EN).map fun en => vAbs (vSub (y_true day n) (y_ens day en n)))
    else Val.nan
  let SPREAD : ℕ → ℕ → Val := fun day n =>
    if day < N_day ∧ n < N_grids then
      if (y_true day n).isnan then Val.nan
      else vDivN ((List.range EN).foldl (fun acc en1 =>
        (List.range EN).foldl (fun acc2 en2 =>
          acc2 + vAbs (vSub (y_ens day en1 n) (y_ens day en2 n))) acc) 0) M
    else Val.nan
  let CRPS : ℕ → ℕ → Val := fun day n => vSub (MAE day n) (SPREAD day n)
  (CRPS, MAE, SPREAD)

/-- `CRPS_2d(y_true, y_ens, land_mask)` of `score_utils.py`.  `y_true` has
shape `(N_day, Nx, Ny)`, `y_ens` has shape `(N_day, EN, Nx, Ny)`;
`land_mask` is optional (`None` becomes the all-`True` mask built by
`np.ones((Nx, Ny)) > 0`); cells whose mask entry is `False` keep their
`np.nan` initialisation. -/
def CRPS_2d (N_day EN Nx Ny : ℕ) (y_true : ℕ → ℕ → ℕ → Val)
    (y_ens : ℕ → ℕ → ℕ → ℕ → Val) (land_mask : Option (ℕ → ℕ → Bool)) :
    (ℕ → ℕ → ℕ → Val) × (ℕ → ℕ → ℕ → Val) × (ℕ → ℕ → ℕ → Val) :=
  let M := spread_norm EN
  let land_mask_ : ℕ → ℕ → Bool := match land_mask with
    | none => fun _ _ => true
    | some m => m
  let MAE : ℕ → ℕ → ℕ → Val := fun day i j =>
    if i < Nx ∧ j < Ny ∧ land_mask_ i j = true ∧ day < N_day then
      npMean ((List.range EN).map fun en => vAbs (vSub (y_true day i j) (y_ens day en i j)))
    else Val.nan
  let SPREAD : ℕ → ℕ → ℕ → Val := fun day i j =>
    if i < Nx ∧ j < Ny ∧ land_mask_ i j = true ∧ day < N_day then
      vDivN ((List.range EN).foldl (fun acc en1 =>
        (List.range EN).foldl (fun acc2 en2 =>
          acc2 + vAbs (vSub (y_ens day en1 i j) (y_ens day en2 i j))) acc) 0) M
    else Val.nan
  let CRPS : ℕ → ℕ → ℕ → Val := fun day i j => vSub (MAE day i j) (SPREAD day i j)
  (CRPS, MAE, SPREAD)

/-- `BS_binary_1d(y_true, y_ens)` of `score_utils.py`: per cell, the
squared difference between the observation and `np.sum(ens)/EN`. -/
def BS_binary_1d (N_days EN N_grids : ℕ) (y_true : ℕ → ℕ → Val)
    (y_ens : ℕ → ℕ → ℕ → Val) : ℕ → ℕ → Val :=
  fun day n =>
    if day < N_days ∧ n < N_grids then
      vSq (vSub (y_true day n)
        (vDivN (vListSum ((List.range EN).map fun en => y_ens day en n)) EN))
    else Val.nan

/-- `BS_binary_1d_nan(y_true, y_ens)` of `score_utils.py`: as
`BS_binary_1d`, but a cell whose observation is NaN gets `np.nan` in place
of the squared difference. -/
def BS_binary_1d_nan (N_days EN N_grids : ℕ) (y_true : ℕ → ℕ → Val)
    (y_ens : ℕ → ℕ → ℕ → Val) : ℕ → ℕ → Val :=
  fun day n =>
    if day < N_days ∧ n < N_grids then
      if (y_true day n).isnan then Val.nan
      else vSq (vSub (y_true day n)
        (vDivN (vListSum ((List.range EN).map fun en => y_ens day en n)) EN))
    else Val.nan

/-- `np.searchsorted(a, v)` with its default `side='left'` on a
non-decreasing sequence: the number of elements strictly below `v`, which
is the left-most insertion position.  (numpy's binary search is only
specified for sorted input, the documented caller contract of `CDFs`.) -/
def searchsorted_left (a : List ℚ) (v : ℚ) : ℕ :=
  a.countP (fun x => decide (x < v))

/-- Follows the spec's words, for comparison with `searchsorted_left`:
the "left-most index such that `CDFs[step-1, g] <= obs < CDFs[step, g]`",
which on a non-decreasing sequence is the `side='right'` insertion
position, counting the elements `≤ v`. -/
def searchsorted_right (a : List ℚ) (v : ℚ) : ℕ :=
  a.countP (fun x => decide (x ≤ v))

/-- The `if step > L: step = L` clamp of `CRPS_1d_from_quantiles`. -/
def clamp_step (s L : ℕ) : ℕ := min s L

/-- The 0/1 step indicator `H_func[:] = 0.0; H_func[step:] = 1.0` over
`num_bins` quantile levels. -/
def H_func (num_bins step : ℕ) : List ℚ :=
  (List.range num_bins).map fun j => if step ≤ j then 1 else 0

/-- `np.trapz(y, x)`: the trapezoidal rule
`∑ i, (x[i+1] − x[i]) · (y[i] + y[i+1]) / 2`. -/
def np_trapz (y x : List ℚ) : ℚ :=
  (List.range (x.length - 1)).foldl
    (fun acc i => acc + (x.getD (i+1) 0 - x.getD i 0) * (y.getD i 0 + y.getD (i+1) 0) / 2) 0

/-- `CRPS_1d_from_quantiles(q_bins, CDFs, y_true)` of `score_utils.py`.
`q_bins` has length `num_bins = L + 1`, `CDFs` has shape
`(num_bins, N_grids)`, `y_true` has shape `(N_days, N_grids)`.  Per cell:
`step = np.searchsorted(cdf, obs)` clamped to `L`, then the trapezoidal
integral of `(q_bins − H_func)²` against `x = cdf`.  (The unused local
`d_bins = q_bins[1] − q_bins[0]` of the source is dropped.) -/
def CRPS_1d_from_quantiles (q_bins : List ℚ) (CDFs : ℕ → ℕ → ℚ)
    (N_days N_grids : ℕ) (y_true : ℕ → ℕ → ℚ) : ℕ → ℕ → Val :=
  let L := q_bins.length - 1
  fun day n =>
    if day < N_days ∧ n < N_grids then
      let cdf := (List.range (L+1)).map fun k => CDFs k n
      let obs := y_true day n
      let step := clamp_step (searchsorted_left cdf obs) L
      Val.num (np_trapz ((q_bins.zip (H_func (L+1) step)).map fun p => (p.1 - p.2)^2) cdf)
    else Val.nan

/-- Follows the spec's words, for comparison with
`CRPS_1d_from_quantiles`: the same computation with the insertion index
the spec describes, the left-most `step` with
`CDFs[step-1, g] <= obs < CDFs[step, g]`. -/
def CRPS_1d_from_quantiles_specStep (q_bins : List ℚ) (CDFs : ℕ → ℕ → ℚ)
    (N_days N_grids : ℕ) (y_true : ℕ → ℕ → ℚ) : ℕ → ℕ → Val :=
  let L := q_bins.length - 1
  fun day n =>
    if day < N_days ∧ n < N_grids then
      let cdf := (List.range (L+1)).map fun k => CDFs k n
      let obs := y_true day n
      let step := clamp_step (searchsorted_right cdf obs) L
      Val.num (np_trapz ((q_bins.zip (H_func (L+1) step)).map fun p => (p.1 - p.2)^2) cdf)
    else Val.nan

/-- The finite content of a value (`none` for NaN). -/
def vToQ : Val → Option ℚ
  | Val.nan => none
  | Val.num q => some q

/-- The flattened slice `data[..., k].ravel()` of an array whose leading
axes have been flattened row-major to a single axis of size `A`. -/
def ravel_slice (A : ℕ) (data : ℕ → ℕ → Val) (k : ℕ) : List Val :=
  (List.range A).map fun a => data a k

/-- `np.mean` of a list of finite values: NaN on an empty list (numpy's
mean of an empty slice), the sum over the length otherwise. -/
def npMeanQ (l : List ℚ) : Val :=
  if l.length = 0 then Val.nan else Val.num (l.sum / l.length)

/-- `score_bootstrap_1d(data, bootstrap_n)` of `score_utils.py`.  `data`
is modelled with every axis except the last flattened to one leading axis
of size `A` (the kernel itself starts from `data[..., i].ravel()`); `K`
is the last-axis size `dim`.  `rng k b j` is the oracle behind the `j`-th
draw of `np.random.choice(L, size=L, replace=True)` in row `k`, bootstrap
cycle `b`; a draw is the oracle value `% L`, in `[0, L)` exactly as
`np.random.choice` guarantees. -/
def score_bootstrap_1d (A K : ℕ) (data : ℕ → ℕ → Val) (bootstrap_n : ℕ)
    (rng : ℕ → ℕ → ℕ → ℕ) : ℕ → ℕ → Val :=
  fun k b =>
    if k < K ∧ b < bootstrap_n then
      let raw := (ravel_slice A data k).filterMap vToQ
      let L := raw.length
      npMeanQ ((List.range L).map fun j => raw.getD (rng k b j % L) 0)
    else Val.nan

/-- `bootstrap_core(rmse_t2m, num_bootstrap_samples)` of
`score_utils.py`: replicate `i` copies the entire row `rmse_t2m[ind, :]`
for a single draw `ind = np.random.randint(0, n_days)`, modelled as
`rng i % n_days`.  The replicate matrix has shape
`(num_bootstrap_samples, n_lead_times)`. -/
def bootstrap_core (n_days : ℕ) (rmse : ℕ → ℕ → ℚ) (rng : ℕ → ℕ) :
    ℕ → ℕ → ℚ :=
  fun i t => rmse (rng i % n_days) t

/-- Insertion step of an ascending insertion sort. -/
def insertSorted (x : ℚ) : List ℚ → List ℚ
  | [] => [x]
  | y :: ys => if x ≤ y then x :: y :: ys else y :: insertSorted x ys

/-- Ascending sort, as `np.quantile` performs internally. -/
def sortQ (l : List ℚ) : List ℚ := l.foldr insertSorted []

/-- `np.quantile(a, q)` with numpy's default linear interpolation: with
`s` the ascending sort of `a`, `n = len(a)` and `pos = q·(n−1)`, the
value `s[⌊pos⌋] + (pos − ⌊pos⌋)·(s[⌊pos⌋+1] − s[⌊pos⌋])`, the upper index
clamped to `n−1`; NaN on an empty input. -/
def np_quantile (a : List ℚ) (q : ℚ) : Val :=
  if a.length = 0 then Val.nan
  else
    Val.num ((sortQ a).getD (⌊q * ((a.length : ℚ) - 1)⌋).toNat 0 +
      (q * ((a.length : ℚ) - 1) - ((⌊q * ((a.length : ℚ) - 1)⌋).toNat : ℚ)) *
        ((sortQ a).getD (min ((⌊q * ((a.length : ℚ) - 1)⌋).toNat + 1) (a.length - 1)) 0 -
          (sortQ a).getD (⌊q * ((a.length : ℚ) - 1)⌋).toNat 0))

/-- `bootstrap_confidence_intervals(rmse_t2m, num_bootstrap_samples,
lower_quantile, upper_quantile)` of `score_utils.py`: draws the replicate
matrix with `bootstrap_core`, then takes `np.quantile(_, lq, axis=0)`,
`np.quantile(_, uq, axis=0)` and `np.mean(_, axis=0)`; returns
`(mean_score, ci_lower, ci_upper)`, each of shape `(n_lead_times,)`.
(The optional `np.random.seed` call only fixes the oracle `rng`.) -/
def bootstrap_confidence_intervals (n_days n_lead_times : ℕ)
    (rmse : ℕ → ℕ → ℚ) (num_bootstrap_samples : ℕ)
    (lower_quantile upper_quantile : ℚ) (rng : ℕ → ℕ) :
    (ℕ → Val) × (ℕ → Val) × (ℕ → Val) :=
  let bootstrap_data := bootstrap_core n_days rmse rng
  let column : ℕ → List ℚ := fun t =>
    (List.range num_bootstrap_samples).map fun i => bootstrap_data i t
  let ci_lower : ℕ → Val := fun t =>
    if t < n_lead_times then np_quantile (column t) lower_quantile else Val.nan
  let ci_upper : ℕ → Val := fun t =>
    if t < n_lead_times then np_quantile (column t) upper_quantile else Val.nan
  let mean_score : ℕ → Val := fun t =>
    if t < n_lead_times then npMeanQ (column t) else Val.nan
  (mean_score, ci_lower, ci_upper)

theorem Val.add_def (a b : Val) : a + b = Val.vAdd a b := rfl

theorem Val.zero_def : (0 : Val) = Val.num 0 := rfl

theorem Val.num_add (a b : ℚ) : (Val.num a) + (Val.num b) = Val.num (a + b) := rfl

section FoldSum

/-- Accumulating a function over `range n` by `foldl (+)` is adding its
`Finset.range` sum to the accumulator. -/
theorem foldl_add_range (f : ℕ → Val) (n : ℕ) (init : Val) :
    (List.range n).foldl (fun acc e => acc + f e) init =
      init + ∑ e ∈ Finset.range n, f e := by
  induction n generalizing init with
  | zero => simp
  | succ m ih =>
    rw [List.range_succ, List.foldl_append, ih, Finset.sum_range_succ]
    simp [add_assoc]

/-- The loop sum over `range n` equals the `Finset.range` sum. -/
theorem vListSum_map_range (f : ℕ → Val) (n : ℕ) :
    vListSum ((List.range n).map f) = ∑ e ∈ Finset.range n, f e := by
  have h : vListSum ((List.range n).map f) =
      (List.range n).foldl (fun acc e => acc + f e) 0 := by
    simp [vListSum, List.foldl_map]
  rw [h, foldl_add_range, zero_add]

end FoldSum

section NanFree

/-- A value is non-NaN exactly when `np.isnan` is false on it. -/
theorem isnan_eq_false_iff (v : Val) : v.isnan = false ↔ v ≠ Val.nan := by
  cases v <;> simp [Val.isnan]

theorem vAdd_ne_nan {a b : Val} (ha : a ≠ Val.nan) (hb : b ≠ Val.nan) :
    a + b ≠ Val.nan := by
  cases a <;> cases b <;> simp_all [Val.add_def, Val.vAdd]

theorem vSub_ne_nan {a b : Val} (ha : a ≠ Val.nan) (hb : b ≠ Val.nan) :
    vSub a b ≠ Val.nan := by
  cases a <;> cases b <;> simp_all [Val.vSub]

theorem vAbs_ne_nan {a : Val} (ha : a ≠ Val.nan) : vAbs a ≠ Val.nan := by
  cases a <;> simp_all [Val.vAbs]

theorem vSq_ne_nan {a : Val} (ha : a ≠ Val.nan) : vSq a ≠ Val.nan := by
  cases a <;> simp_all [Val.vSq]

theorem vDivN_ne_nan {a : Val} {m : ℕ} (ha : a ≠ Val.nan) (hm : m ≠ 0) :
    vDivN a m ≠ Val.nan := by
  cases a <;> simp_all [Val.vDivN]

/-- A left fold whose step preserves non-NaN stays non-NaN. -/
theorem foldl_preserve_ne_nan {α : Type} (l : List α) (g : Val → α → Val)
    (init : Val) (hi : init ≠ Val.nan)
    (hg : ∀ acc e, acc ≠ Val.nan → e ∈ l → g acc e ≠ Val.nan) :
    l.foldl g init ≠ Val.nan := by
  induction l generalizing init with
  | nil => exact hi
  | cons x xs ih =>
    refine ih (g init x) (hg init x hi (List.mem_cons_self x xs)) ?_
    intro acc e hacc he
    exact hg acc e hacc (List.mem_cons_of_mem x he)

/-- A loop sum of non-NaN values is non-NaN. -/
theorem vListSum_ne_nan (l : List Val) (h : ∀ v ∈ l, v ≠ Val.nan) :
    vListSum l ≠ Val.nan := by
  refine foldl_preserve_ne_nan l _ 0 (by simp [Val.zero_def]) ?_
  intro acc e hacc he
  exact vAdd_ne_nan hacc (h e he)

/-- The per-cell MAE expression of the pairwise kernels is non-NaN on
non-NaN inputs with a non-empty ensemble. -/
theorem npMean_abs_ne_nan (obs : Val) (f : ℕ → Val) (EN : ℕ) (hEN : EN ≠ 0)
    (hobs : obs ≠ Val.nan) (hf : ∀ en, en < EN → f en ≠ Val.nan) :
    npMean ((List.range EN).map fun en => vAbs (vSub obs (f en))) ≠ Val.nan := by
  unfold npMean
  have hsum : vListSum ((List.range EN).map fun en => vAbs (vSub obs (f en))) ≠ Val.nan := by
    refine vListSum_ne_nan _ ?_
    intro v hv
    rcases List.mem_map.1 hv with ⟨en, hen, rfl⟩
    exact vAbs_ne_nan (vSub_ne_nan hobs (hf en (List.mem_range.1 hen)))
  refine vDivN_ne_nan hsum ?_
  simpa using hEN

/-- The per-cell SPREAD expression of the pairwise kernels is non-NaN on
non-NaN ensembles with a non-empty member axis. -/
theorem spread_loop_ne_nan (f : ℕ → Val) (EN : ℕ) (hEN : EN ≠ 0)
    (hf : ∀ en, en < EN → f en ≠ Val.nan) :
    vDivN ((List.range EN).foldl (fun acc en1 =>
      (List.range EN).foldl (fun acc2 en2 =>
        acc2 + vAbs (vSub (f en1) (f en2))) acc) 0) (spread_norm EN) ≠ Val.nan := by
  have hloop : (List.range EN).foldl (fun acc en1 =>
      (List.range EN).foldl (fun acc2 en2 =>
        acc2 + vAbs (vSub (f en1) (f en2))) acc) 0 ≠ Val.nan := by
    refine foldl_preserve_ne_nan _ _ 0 (by simp [Val.zero_def]) ?_
    intro acc en1 hacc hen1
    refine foldl_preserve_ne_nan _ _ acc hacc ?_
    intro acc2 en2 hacc2 hen2
    exact vAdd_ne_nan hacc2
      (vAbs_ne_nan (vSub_ne_nan (hf en1 (List.mem_range.1 hen1))
        (hf en2 (List.mem_range.1 hen2))))
  refine vDivN_ne_nan hloop ?_
  simp only [spread_norm]
  positivity

/-- The per-cell Brier-Score expression is non-NaN on non-NaN inputs with
a non-empty ensemble. -/
theorem bs_cell_ne_nan (obs : Val) (f : ℕ → Val) (EN : ℕ) (hEN : EN ≠ 0)
    (hobs : obs ≠ Val.nan) (hf : ∀ en, en < EN → f en ≠ Val.nan) :
    vSq (vSub obs (vDivN (vListSum ((List.range EN).map f)) EN)) ≠ Val.nan := by
  have hsum : vListSum ((List.range EN).map f) ≠ Val.nan := by
    refine vListSum_ne_nan _ ?_
    intro v hv
    rcases List.mem_map.1 hv with ⟨en, hen, rfl⟩
    exact hf en (List.mem_range.1 hen)
  exact vSq_ne_nan (vSub_ne_nan hobs (vDivN_ne_nan hsum hEN))

end NanFree

/-- Row-major pairing of a 2-D grid index with its flattened position. -/
theorem reshape_idx (i j Ny : ℕ) (hj : j < Ny) :
    (i * Ny + j) / Ny = i ∧ (i * Ny + j) % Ny = j := by
  have hNy : 0 < Ny := lt_of_le_of_lt (Nat.zero_le j) hj
  constructor
  · rw [mul_comm, Nat.mul_add_div hNy, Nat.div_eq_of_lt hj, Nat.add_zero]
  · rw [mul_comm, Nat.mul_add_mod, Nat.mod_eq_of_lt hj]

/-- On a non-decreasing list, every position below the `side='left'`
insertion point holds a value strictly below `v`. -/
theorem sorted_getD_lt_of_lt_countP (l : List ℚ) (v : ℚ)
    (hs : l.Sorted (· ≤ ·)) (i : ℕ)
    (hi : i < l.countP (fun x => decide (x < v))) :
    l.getD i 0 < v := by
  induction l generalizing i with
  | nil => simp at hi
  | cons x xs ih =>
    rw [List.sorted_cons] at hs
    rw [List.countP_cons] at hi
    by_cases hx : x < v
    · cases i with
      | zero => simpa [List.getD] using hx
      | succ i' =>
        simp only [hx] at hi
        simp at hi
        exact ih hs.2 i' (by omega)
    · have hzero : xs.countP (fun x => decide (x < v)) = 0 := by
        refine List.countP_eq_zero.2 ?_
        intro y hy
        have hxy : x ≤ y := hs.1 y hy
        simp only [decide_eq_true_eq]
        intro hyv
        exact hx (lt_of_le_of_lt hxy hyv)
      simp [hx, hzero] at hi

/-- On a non-decreasing list, every position at or past the `side='left'`
insertion point holds a value at least `v`. -/
theorem le_sorted_getD_of_countP_le (l : List ℚ) (v : ℚ)
    (hs : l.Sorted (· ≤ ·)) (i : ℕ)
    (h1 : l.countP (fun x => decide (x < v)) ≤ i) (h2 : i < l.length) :
    v ≤ l.getD i 0 := by
  induction l generalizing i with
  | nil => simp at h2
  | cons x xs ih =>
    rw [List.sorted_cons] at hs
    rw [List.countP_cons] at h1
    by_cases hx : x < v
    · cases i with
      | zero => simp [hx] at h1
      | succ i' =>
        refine ih hs.2 i' ?_ (by simpa using h2)
        simp only [hx] at h1
        simp at h1
        omega
    · have hzero : xs.countP (fun x => decide (x < v)) = 0 := by
        refine List.countP_eq_zero.2 ?_
        intro y hy
        have hxy : x ≤ y := hs.1 y hy
        simp only [decide_eq_true_eq]
        intro hyv
        exact hx (lt_of_le_of_lt hxy hyv)
      cases i with
      | zero => simpa [List.getD] using not_lt.1 hx
      | succ i' =>
        exact ih hs.2 i' (by omega) (by simpa using h2)

/-- Dropping NaNs via `filterMap vToQ` keeps exactly the values
`np.logical_not(np.isnan(...))` flags, so `L = np.sum(flag_nan)`. -/
theorem filterMap_vToQ_length (l : List Val) :
    (l.filterMap vToQ).length = l.countP (fun v => !v.isnan) := by
  induction l with
  | nil => rfl
  | cons x xs ih =>
    cases x <;> simp [List.filterMap_cons, List.countP_cons, vToQ, Val.isnan, ih]

/-- C1: for every in-range cell, `CRPS_1d` returns MAE = mean over members
of `|obs − member|`, SPREAD = the sum over all ordered member pairs
(including self-pairs) of `|ens[en1] − ens[en2]|` divided by `2·EN²`, and
CRPS = MAE − SPREAD exactly. -/
theorem CRPS_1d_cell_spec (N_day EN N_grids : ℕ) (y_true : ℕ → ℕ → Val)
    (y_ens : ℕ → ℕ → ℕ → Val) (day n : ℕ)
    (hday : day < N_day) (hn : n < N_grids) :
    (CRPS_1d N_day EN N_grids y_true y_ens).2.1 day n =
      vDivN (∑ en ∈ Finset.range EN,
        vAbs (vSub (y_true day n) (y_ens day en n))) EN ∧
    (CRPS_1d N_day EN N_grids y_true y_ens).2.2 day n =
      vDivN (∑ en1 ∈ Finset.range EN, ∑ en2 ∈ Finset.range EN,
        vAbs (vSub (y_ens day en1 n) (y_ens day en2 n))) (2 * EN * EN) ∧
    (CRPS_1d N_day EN N_grids y_true y_ens).1 day n =
      vSub ((CRPS_1d N_day EN N_grids y_true y_ens).2.1 day n)
        ((CRPS_1d N_day EN N_grids y_true y_ens).2.2 day n) := by
  refine ⟨?_, ?_, rfl⟩
  · show (if day < N_day ∧ n < N_grids then
        npMean ((List.range EN).map fun en =>
          vAbs (vSub (y_true day n) (y_ens day en n)))
      else Val.nan) = _
    rw [if_pos ⟨hday, hn⟩]
    unfold npMean
    rw [vListSum_map_range]
    simp
  · show (if day < N_day ∧ n < N_grids then
        vDivN ((List.range EN).foldl (fun acc en1 =>
          (List.range EN).foldl (fun acc2 en2 =>
            acc2 + vAbs (vSub (y_ens day en1 n) (y_ens day en2 n))) acc) 0)
          (spread_norm EN)
      else Val.nan) = _
    rw [if_pos ⟨hday, hn⟩]
    have hinner : ∀ init : Val, ∀ en1 : ℕ,
        (List.range EN).foldl (fun acc2 en2 =>
          acc2 + vAbs (vSub (y_ens day en1 n) (y_ens day en2 n))) init =
        init + ∑ en2 ∈ Finset.range EN,
          vAbs (vSub (y_ens day en1 n) (y_ens day en2 n)) := by
      intro init en1
      exact foldl_add_range _ EN init
    have houter : (List.range EN).foldl (fun acc en1 =>
        (List.range EN).foldl (fun acc2 en2 =>
          acc2 + vAbs (vSub (y_ens day en1 n) (y_ens day en2 n))) acc) 0 =
        ∑ en1 ∈ Finset.range EN, ∑ en2 ∈ Finset.range EN,
          vAbs (vSub (y_ens day en1 n) (y_ens day en2 n)) := by
      have : (List.range EN).foldl (fun acc en1 =>
          (List.range EN).foldl (fun acc2 en2 =>
            acc2 + vAbs (vSub (y_ens day en1 n) (y_ens day en2 n))) acc) 0 =
          (List.range EN).foldl (fun acc en1 =>
            acc + ∑ en2 ∈ Finset.range EN,
              vAbs (vSub (y_ens day en1 n) (y_ens day en2 n))) 0 := by
        refine List.foldl_ext _ _ 0 ?_
        intro acc en1 _
        exact hinner acc en1
      rw [this, foldl_add_range, zero_add]
    rw [houter]
    rfl

/-- C1 witness: the spec's concrete scenario `y_true = [[1]]`,
`y_ens = [[[0],[2]]]` (1 day, 2 members, 1 grid point). -/
theorem CRPS_1d_cell_spec_witness :
    (CRPS_1d 1 2 1 (fun _ _ => Val.num 1)
        (fun _ en _ => if en = 0 then Val.num 0 else Val.num 2)).2.1 0 0 =
      vDivN (∑ en ∈ Finset.range 2,
        vAbs (vSub (Val.num 1)
          (if en = 0 then Val.num 0 else Val.num 2))) 2 ∧
    (CRPS_1d 1 2 1 (fun _ _ => Val.num 1)
        (fun _ en _ => if en = 0 then Val.num 0 else Val.num 2)).2.2 0 0 =
      vDivN (∑ en1 ∈ Finset.range 2, ∑ en2 ∈ Finset.range 2,
        vAbs (vSub (if en1 = 0 then Val.num 0 else Val.num 2)
          (if en2 = 0 then Val.num 0 else Val.num 2))) (2 * 2 * 2) ∧
    (CRPS_1d 1 2 1 (fun _ _ => Val.num 1)
        (fun _ en _ => if en = 0 then Val.num 0 else Val.num 2)).1 0 0 =
      vSub ((CRPS_1d 1 2 1 (fun _ _ => Val.num 1)
        (fun _ en _ => if en = 0 then Val.num 0 else Val.num 2)).2.1 0 0)
        ((CRPS_1d 1 2 1 (fun _ _ => Val.num 1)
          (fun _ en _ => if en = 0 then Val.num 0 else Val.num 2)).2.2 0 0) :=
  CRPS_1d_cell_spec 1 2 1 _ _ 0 0 (by decide) (by decide)

/-- C2: wherever the observation is present, `CRPS_1d_nan` agrees with
`CRPS_1d` cell by cell; wherever the observation is NaN, its MAE, SPREAD
and CRPS for that cell are NaN and do not depend on the ensemble values at
all (the ensemble is never read there). -/
theorem CRPS_1d_nan_refines (N_day EN N_grids : ℕ) (y_true : ℕ → ℕ → Val)
    (y_ens : ℕ → ℕ → ℕ → Val) (day n : ℕ)
    (hday : day < N_day) (hn : n < N_grids) :
    ((y_true day n).isnan = false →
      (CRPS_1d_nan N_day EN N_grids y_true y_ens).2.1 day n =
        (CRPS_1d N_day EN N_grids y_true y_ens).2.1 day n ∧
      (CRPS_1d_nan N_day EN N_grids y_true y_ens).2.2 day n =
        (CRPS_1d N_day EN N_grids y_true y_ens).2.2 day n ∧
      (CRPS_1d_nan N_day EN N_grids y_true y_ens).1 day n =
        (CRPS_1d N_day EN N_grids y_true y_ens).1 day n) ∧
    ((y_true day n).isnan = true →
      (CRPS_1d_nan N_day EN N_grids y_true y_ens).2.1 day n = Val.nan ∧
      (CRPS_1d_nan N_day EN N_grids y_true y_ens).2.2 day n = Val.nan ∧
      (CRPS_1d_nan N_day EN N_grids y_true y_ens).1 day n = Val.nan ∧
      ∀ y_ens' : ℕ → ℕ → ℕ → Val,
        (CRPS_1d_nan N_day EN N_grids y_true y_ens').2.1 day n =
          (CRPS_1d_nan N_day EN N_grids y_true y_ens).2.1 day n ∧
        (CRPS_1d_nan N_day EN N_grids y_true y_ens').2.2 day n =
          (CRPS_1d_nan N_day EN N_grids y_true y_ens).2.2 day n ∧
        (CRPS_1d_nan N_day EN N_grids y_true y_ens').1 day n =
          (CRPS_1d_nan N_day EN N_grids y_true y_ens).1 day n) := by
  constructor
  · intro h
    refine ⟨?_, ?_, ?_⟩ <;>
      simp [CRPS_1d_nan, CRPS_1d, hday, hn, h]
  · intro h
    refine ⟨?_, ?_, ?_, ?_⟩
    · simp [CRPS_1d_nan, hday, hn, h]
    · simp [CRPS_1d_nan, hday, hn, h]
    · simp [CRPS_1d_nan, hday, hn, h, vSub]
    · intro y_ens'
      refine ⟨?_, ?_, ?_⟩ <;>
        simp [CRPS_1d_nan, hday, hn, h, vSub]

/-- C2 witness: a 2-day array whose first observation is present, applied
at the in-range cell `(0, 0)`. -/
theorem CRPS_1d_nan_refines_witness :
    (((fun day _ => if day = 0 then Val.num 1 else Val.nan : ℕ → ℕ → Val) 0 0).isnan = false →
      (CRPS_1d_nan 2 2 1 (fun day _ => if day = 0 then Val.num 1 else Val.nan)
          (fun _ en _ => if en = 0 then Val.num 0 else Val.num 2)).2.1 0 0 =
        (CRPS_1d 2 2 1 (fun day _ => if day = 0 then Val.num 1 else Val.nan)
          (fun _ en _ => if en = 0 then Val.num 0 else Val.num 2)).2.1 0 0 ∧
      (CRPS_1d_nan 2 2 1 (fun day _ => if day = 0 then Val.num 1 else Val.nan)
          (fun _ en _ => if en = 0 then Val.num 0 else Val.num 2)).2.2 0 0 =
        (CRPS_1d 2 2 1 (fun day _ => if day = 0 then Val.num 1 else Val.nan)
          (fun _ en _ => if en = 0 then Val.num 0 else Val.num 2)).2.2 0 0 ∧
      (CRPS_1d_nan 2 2 1 (fun day _ => if day = 0 then Val.num 1 else Val.nan)
          (fun _ en _ => if en = 0 then Val.num 0 else Val.num 2)).1 0 0 =
        (CRPS_1d 2 2 1 (fun day _ => if day = 0 then Val.num 1 else Val.nan)
          (fun _ en _ => if en = 0 then Val.num 0 else Val.num 2)).1 0 0) ∧
    (((fun day _ => if day = 0 then Val.num 1 else Val.nan : ℕ → ℕ → Val) 0 0).isnan = true →
      (CRPS_1d_nan 2 2 1 (fun day _ => if day = 0 then Val.num 1 else Val.nan)
          (fun _ en _ => if en = 0 then Val.num 0 else Val.num 2)).2.1 0 0 = Val.nan ∧
      (CRPS_1d_nan 2 2 1 (fun day _ => if day = 0 then Val.num 1 else Val.nan)
          (fun _ en _ => if en = 0 then Val.num 0 else Val.num 2)).2.2 0 0 = Val.nan ∧
      (CRPS_1d_nan 2 2 1 (fun day _ => if day = 0 then Val.num 1 else Val.nan)
          (fun _ en _ => if en = 0 then Val.num 0 else Val.num 2)).1 0 0 = Val.nan ∧
      ∀ y_ens' : ℕ → ℕ → ℕ → Val,
        (CRPS_1d_nan 2 2 1 (fun day _ => if day = 0 then Val.num 1 else Val.nan) y_ens').2.1 0 0 =
          (CRPS_1d_nan 2 2 1 (fun day _ => if day = 0 then Val.num 1 else Val.nan)
            (fun _ en _ => if en = 0 then Val.num 0 else Val.num 2)).2.1 0 0 ∧
        (CRPS_1d_nan 2 2 1 (fun day _ => if day = 0 then Val.num 1 else Val.nan) y_ens').2.2 0 0 =
          (CRPS_1d_nan 2 2 1 (fun day _ => if day = 0 then Val.num 1 else Val.nan)
            (fun _ en _ => if en = 0 then Val.num 0 else Val.num 2)).2.2 0 0 ∧
        (CRPS_1d_nan 2 2 1 (fun day _ => if day = 0 then Val.num 1 else Val.nan) y_ens').1 0 0 =
          (CRPS_1d_nan 2 2 1 (fun day _ => if day = 0 then Val.num 1 else Val.nan)
            (fun _ en _ => if en = 0 then Val.num 0 else Val.num 2)).1 0 0) :=
  CRPS_1d_nan_refines 2 2 1 (fun day _ => if day = 0 then Val.num 1 else Val.nan)
    (fun _ en _ => if en = 0 then Val.num 0 else Val.num 2) 0 0 (by decide) (by decide)

/-- C3 counterexample: with `q_bins = [0, 1/4, 1]`, the CDF column
`[0, 1, 2]` and observation `1` (a tie with a CDF value), the code's
`searchsorted` (side `'left'`) puts `step = 1`, the claimed inequality
`CDFs[step-1] <= obs < CDFs[step]` would put `step = 2`, and the two CRPS
values differ (`9/16` against `1/16`): the claim's characterisation of
`step` does not hold on ties. -/
theorem CRPS_1d_from_quantiles_step_counterexample :
    searchsorted_left [(0:ℚ), 1, 2] 1 = 1 ∧
    ¬ ((1:ℚ) < [(0:ℚ), 1, 2].getD 1 0) ∧
    searchsorted_right [(0:ℚ), 1, 2] 1 = 2 ∧
    CRPS_1d_from_quantiles [0, 1/4, 1] (fun k _ => (k:ℚ)) 1 1 (fun _ _ => 1) 0 0 =
      Val.num (9/16) ∧
    CRPS_1d_from_quantiles_specStep [0, 1/4, 1] (fun k _ => (k:ℚ)) 1 1 (fun _ _ => 1) 0 0 =
      Val.num (1/16) ∧
    CRPS_1d_from_quantiles [0, 1/4, 1] (fun k _ => (k:ℚ)) 1 1 (fun _ _ => 1) 0 0 ≠
      CRPS_1d_from_quantiles_specStep [0, 1/4, 1] (fun k _ => (k:ℚ)) 1 1 (fun _ _ => 1) 0 0 := by
  refine ⟨by decide, by decide, by decide, ?_, ?_, ?_⟩
  · norm_num [CRPS_1d_from_quantiles, clamp_step, searchsorted_left, H_func,
      np_trapz, List.range_succ, List.countP_cons]
  · norm_num [CRPS_1d_from_quantiles_specStep, clamp_step, searchsorted_right, H_func,
      np_trapz, List.range_succ, List.countP_cons]
  · norm_num [CRPS_1d_from_quantiles, CRPS_1d_from_quantiles_specStep, clamp_step,
      searchsorted_left, searchsorted_right, H_func,
      np_trapz, List.range_succ, List.countP_cons]

/-- C3 (amended): for every in-range cell, with the grid point's CDF
column non-decreasing, the code's `step` (before clamping) is the
left-most insertion index with `CDFs[step-1, g] < obs <= CDFs[step, g]`
(every earlier value strictly below the observation, every value from
`step` on at least the observation), and the returned CRPS is the
trapezoidal integral of `(q_bins − indicator)²` against the CDF values,
the indicator being 0 below the clamped step and 1 from it on. -/
theorem CRPS_1d_from_quantiles_cell_spec (q_bins : List ℚ) (CDFs : ℕ → ℕ → ℚ)
    (N_days N_grids : ℕ) (y_true : ℕ → ℕ → ℚ) (day n : ℕ)
    (hday : day < N_days) (hn : n < N_grids)
    (hsorted : ((List.range (q_bins.length - 1 + 1)).map fun k => CDFs k n).Sorted (· ≤ ·)) :
    (∀ i, i < searchsorted_left
        ((List.range (q_bins.length - 1 + 1)).map fun k => CDFs k n) (y_true day n) →
      ((List.range (q_bins.length - 1 + 1)).map fun k => CDFs k n).getD i 0 < y_true day n) ∧
    (∀ i, searchsorted_left
        ((List.range (q_bins.length - 1 + 1)).map fun k => CDFs k n) (y_true day n) ≤ i →
      i < ((List.range (q_bins.length - 1 + 1)).map fun k => CDFs k n).length →
      y_true day n ≤ ((List.range (q_bins.length - 1 + 1)).map fun k => CDFs k n).getD i 0) ∧
    CRPS_1d_from_quantiles q_bins CDFs N_days N_grids y_true day n =
      Val.num (np_trapz ((q_bins.zip (H_func (q_bins.length - 1 + 1)
          (clamp_step (searchsorted_left
            ((List.range (q_bins.length - 1 + 1)).map fun k => CDFs k n) (y_true day n))
          (q_bins.length - 1)))).map fun p => (p.1 - p.2)^2)
        ((List.range (q_bins.length - 1 + 1)).map fun k => CDFs k n)) := by
  refine ⟨?_, ?_, ?_⟩
  · intro i hi
    exact sorted_getD_lt_of_lt_countP _ _ hsorted i hi
  · intro i h1 h2
    exact le_sorted_getD_of_countP_le _ _ hsorted i h1 h2
  · simp [CRPS_1d_from_quantiles, hday, hn]

/-- C3 witness: `q_bins = [0, 1/2, 1]`, CDF column `[0, 1, 2]`,
observation `1/2`, at cell `(0, 0)`. -/
theorem CRPS_1d_from_quantiles_cell_spec_witness :
    (∀ i, i < searchsorted_left
        ((List.range ([(0:ℚ), 1/2, 1].length - 1 + 1)).map fun k => ((k:ℚ)))
        ((fun _ _ => (1/2 : ℚ)) 0 0) →
      ((List.range ([(0:ℚ), 1/2, 1].length - 1 + 1)).map fun k => ((k:ℚ))).getD i 0 <
        (fun _ _ => (1/2 : ℚ)) 0 0) ∧
    (∀ i, searchsorted_left
        ((List.range ([(0:ℚ), 1/2, 1].length - 1 + 1)).map fun k => ((k:ℚ)))
        ((fun _ _ => (1/2 : ℚ)) 0 0) ≤ i →
      i < ((List.range ([(0:ℚ), 1/2, 1].length - 1 + 1)).map fun k => ((k:ℚ))).length →
      (fun _ _ => (1/2 : ℚ)) 0 0 ≤
        ((List.range ([(0:ℚ), 1/2, 1].length - 1 + 1)).map fun k => ((k:ℚ))).getD i 0) ∧
    CRPS_1d_from_quantiles [(0:ℚ), 1/2, 1] (fun k _ => (k:ℚ)) 1 1 (fun _ _ => (1/2 : ℚ)) 0 0 =
      Val.num (np_trapz (([(0:ℚ), 1/2, 1].zip (H_func ([(0:ℚ), 1/2, 1].length - 1 + 1)
          (clamp_step (searchsorted_left
            ((List.range ([(0:ℚ), 1/2, 1].length - 1 + 1)).map fun k => ((k:ℚ)))
            ((fun _ _ => (1/2 : ℚ)) 0 0))
          ([(0:ℚ), 1/2, 1].length - 1)))).map fun p => (p.1 - p.2)^2)
        ((List.range ([(0:ℚ), 1/2, 1].length - 1 + 1)).map fun k => ((k:ℚ)))) :=
  CRPS_1d_from_quantiles_cell_spec [(0:ℚ), 1/2, 1] (fun k _ => (k:ℚ)) 1 1
    (fun _ _ => (1/2 : ℚ)) 0 0 (by decide) (by decide)
    (by simp [List.sorted_cons, List.range_succ])

/-- C4: every replicate of `bootstrap_confidence_intervals` copies one
whole uniformly-drawn day row; per lead time, the three outputs are the
mean across the replicate axis and the empirical `lower_q` / `upper_q`
quantiles of the replicate distribution. -/
theorem bootstrap_confidence_intervals_spec (n_days n_lead_times num : ℕ)
    (rmse : ℕ → ℕ → ℚ) (lq uq : ℚ) (rng : ℕ → ℕ) (t : ℕ)
    (ht : t < n_lead_times) (hdays : 0 < n_days) :
    (∀ i, ∃ d, d < n_days ∧ ∀ s, bootstrap_core n_days rmse rng i s = rmse d s) ∧
    (bootstrap_confidence_intervals n_days n_lead_times rmse num lq uq rng).1 t =
      npMeanQ ((List.range num).map fun i => rmse (rng i % n_days) t) ∧
    (bootstrap_confidence_intervals n_days n_lead_times rmse num lq uq rng).2.1 t =
      np_quantile ((List.range num).map fun i => rmse (rng i % n_days) t) lq ∧
    (bootstrap_confidence_intervals n_days n_lead_times rmse num lq uq rng).2.2 t =
      np_quantile ((List.range num).map fun i => rmse (rng i % n_days) t) uq := by
  refine ⟨?_, ?_, ?_, ?_⟩
  · intro i
    exact ⟨rng i % n_days, Nat.mod_lt _ hdays, fun s => rfl⟩
  · show (if t < n_lead_times then
        npMeanQ ((List.range num).map fun i => bootstrap_core n_days rmse rng i t)
      else Val.nan) = _
    rw [if_pos ht]
    rfl
  · show (if t < n_lead_times then
        np_quantile ((List.range num).map fun i => bootstrap_core n_days rmse rng i t) lq
      else Val.nan) = _
    rw [if_pos ht]
    rfl
  · show (if t < n_lead_times then
        np_quantile ((List.range num).map fun i => bootstrap_core n_days rmse rng i t) uq
      else Val.nan) = _
    rw [if_pos ht]
    rfl

/-- C4 witness: a `2 × 1` score matrix, 3 replicates, quantiles 0.05 and
0.95, the oracle drawing day `i % 2`. -/
theorem bootstrap_confidence_intervals_spec_witness :
    (∀ i, ∃ d : ℕ, d < 2 ∧ ∀ s : ℕ, bootstrap_core 2 (fun d _ => (d:ℚ)) (fun i => i) i s =
      (d:ℚ)) ∧
    (bootstrap_confidence_intervals 2 1 (fun d _ => (d:ℚ)) 3 (5/100) (95/100)
        (fun i => i)).1 0 =
      npMeanQ ((List.range 3).map fun i => ((i % 2 : ℕ) : ℚ)) ∧
    (bootstrap_confidence_intervals 2 1 (fun d _ => (d:ℚ)) 3 (5/100) (95/100)
        (fun i => i)).2.1 0 =
      np_quantile ((List.range 3).map fun i => ((i % 2 : ℕ) : ℚ)) (5/100) ∧
    (bootstrap_confidence_intervals 2 1 (fun d _ => (d:ℚ)) 3 (5/100) (95/100)
        (fun i => i)).2.2 0 =
      np_quantile ((List.range 3).map fun i => ((i % 2 : ℕ) : ℚ)) (95/100) :=
  bootstrap_confidence_intervals_spec 2 1 3 (fun d _ => (d:ℚ)) (5/100) (95/100)
    (fun i => i) 0 (by decide) (by decide)

/-- C5: for every in-range `(k, b)`: the valid-value count `L` is the
number of non-NaN values of the flattened slice `data[..., k]`; the
replicate entry is the mean of `L` values, each drawn (with replacement,
via the `% L` draw) from the valid values of that slice. -/
theorem score_bootstrap_1d_cell_spec (A K bootstrap_n : ℕ) (data : ℕ → ℕ → Val)
    (rng : ℕ → ℕ → ℕ → ℕ) (k b : ℕ) (hk : k < K) (hb : b < bootstrap_n) :
    ((ravel_slice A data k).filterMap vToQ).length =
      (ravel_slice A data k).countP (fun v => !v.isnan) ∧
    score_bootstrap_1d A K data bootstrap_n rng k b =
      npMeanQ ((List.range (((ravel_slice A data k).filterMap vToQ).length)).map
        fun j => ((ravel_slice A data k).filterMap vToQ).getD
          (rng k b j % ((ravel_slice A data k).filterMap vToQ).length) 0) ∧
    (0 < ((ravel_slice A data k).filterMap vToQ).length →
      ∀ j : ℕ, ((ravel_slice A data k).filterMap vToQ).getD
          (rng k b j % ((ravel_slice A data k).filterMap vToQ).length) 0 ∈
        (ravel_slice A data k).filterMap vToQ) := by
  refine ⟨filterMap_vToQ_length _, ?_, ?_⟩
  · show (if k < K ∧ b < bootstrap_n then
        npMeanQ ((List.range (((ravel_slice A data k).filterMap vToQ).length)).map
          fun j => ((ravel_slice A data k).filterMap vToQ).getD
            (rng k b j % ((ravel_slice A data k).filterMap vToQ).length) 0)
      else Val.nan) = _
    rw [if_pos ⟨hk, hb⟩]
  · intro hL j
    have hlt : rng k b j % ((ravel_slice A data k).filterMap vToQ).length <
        ((ravel_slice A data k).filterMap vToQ).length := Nat.mod_lt _ hL
    rw [List.getD_eq_getElem _ _ hlt]
    exact List.getElem_mem _

/-- C5 witness: a flattened slice `[NaN, 3]` (one valid value), one
replicate, the zero oracle, at `(k, b) = (0, 0)`. -/
theorem score_bootstrap_1d_cell_spec_witness :
    ((ravel_slice 2 (fun a _ => if a = 0 then Val.nan else Val.num 3) 0).filterMap vToQ).length =
      (ravel_slice 2 (fun a _ => if a = 0 then Val.nan else Val.num 3) 0).countP
        (fun v => !v.isnan) ∧
    score_bootstrap_1d 2 1 (fun a _ => if a = 0 then Val.nan else Val.num 3) 1
        (fun _ _ _ => 0) 0 0 =
      npMeanQ ((List.range (((ravel_slice 2
          (fun a _ => if a = 0 then Val.nan else Val.num 3) 0).filterMap vToQ).length)).map
        fun j => ((ravel_slice 2
            (fun a _ => if a = 0 then Val.nan else Val.num 3) 0).filterMap vToQ).getD
          (0 % ((ravel_slice 2
            (fun a _ => if a = 0 then Val.nan else Val.num 3) 0).filterMap vToQ).length) 0) ∧
    (0 < ((ravel_slice 2 (fun a _ => if a = 0 then Val.nan else Val.num 3) 0).filterMap
        vToQ).length →
      ∀ j : ℕ, ((ravel_slice 2
          (fun a _ => if a = 0 then Val.nan else Val.num 3) 0).filterMap vToQ).getD
          (0 % ((ravel_slice 2
            (fun a _ => if a = 0 then Val.nan else Val.num 3) 0).filterMap vToQ).length) 0 ∈
        (ravel_slice 2 (fun a _ => if a = 0 then Val.nan else Val.num 3) 0).filterMap vToQ) :=
  score_bootstrap_1d_cell_spec 2 1 1 (fun a _ => if a = 0 then Val.nan else Val.num 3)
    (fun _ _ _ => 0) 0 0 (by decide) (by decide)

/-- C6: with an all-`True` mask, `CRPS_2d` coincides cell by cell with
`CRPS_1d` on the same data with the two grid axes flattened row-major into
one; with an all-`False` mask every output cell is NaN; any cell whose
mask entry is `False` is NaN in all three outputs; an omitted mask is the
all-`True` mask. -/
theorem CRPS_2d_refines (N_day EN Nx Ny : ℕ) (y_true : ℕ → ℕ → ℕ → Val)
    (y_ens : ℕ → ℕ → ℕ → ℕ → Val) (mask : ℕ → ℕ → Bool) (day i j : ℕ)
    (hday : day < N_day) (hi : i < Nx) (hj : j < Ny) :
    ((CRPS_2d N_day EN Nx Ny y_true y_ens (some fun _ _ => true)).2.1 day i j =
      (CRPS_1d N_day EN (Nx * Ny)
        (fun d g => y_true d (g / Ny) (g % Ny))
        (fun d en g => y_ens d en (g / Ny) (g % Ny))).2.1 day (i * Ny + j) ∧
     (CRPS_2d N_day EN Nx Ny y_true y_ens (some fun _ _ => true)).2.2 day i j =
      (CRPS_1d N_day EN (Nx * Ny)
        (fun d g => y_true d (g / Ny) (g % Ny))
        (fun d en g => y_ens d en (g / Ny) (g % Ny))).2.2 day (i * Ny + j) ∧
     (CRPS_2d N_day EN Nx Ny y_true y_ens (some fun _ _ => true)).1 day i j =
      (CRPS_1d N_day EN (Nx * Ny)
        (fun d g => y_true d (g / Ny) (g % Ny))
        (fun d en g => y_ens d en (g / Ny) (g % Ny))).1 day (i * Ny + j)) ∧
    ((CRPS_2d N_day EN Nx Ny y_true y_ens (some fun _ _ => false)).2.1 day i j = Val.nan ∧
     (CRPS_2d N_day EN Nx Ny y_true y_ens (some fun _ _ => false)).2.2 day i j = Val.nan ∧
     (CRPS_2d N_day EN Nx Ny y_true y_ens (some fun _ _ => false)).1 day i j = Val.nan) ∧
    (mask i j = false →
      (CRPS_2d N_day EN Nx Ny y_true y_ens (some mask)).2.1 day i j = Val.nan ∧
      (CRPS_2d N_day EN Nx Ny y_true y_ens (some mask)).2.2 day i j = Val.nan ∧
      (CRPS_2d N_day EN Nx Ny y_true y_ens (some mask)).1 day i j = Val.nan) ∧
    CRPS_2d N_day EN Nx Ny y_true y_ens none =
      CRPS_2d N_day EN Nx Ny y_true y_ens (some fun _ _ => true) := by
  have hdiv : (i * Ny + j) / Ny = i := (reshape_idx i j Ny hj).1
  have hmod : (i * Ny + j) % Ny = j := (reshape_idx i j Ny hj).2
  have hflat : i * Ny + j < Nx * Ny := by
    calc i * Ny + j < i * Ny + Ny := by omega
    _ = (i + 1) * Ny := by ring
    _ ≤ Nx * Ny := Nat.mul_le_mul_right Ny hi
  refine ⟨⟨?_, ?_, ?_⟩, ⟨?_, ?_, ?_⟩, ?_, rfl⟩
  · simp [CRPS_2d, CRPS_1d, hday, hi, hj, hdiv, hmod, hflat]
  · simp [CRPS_2d, CRPS_1d, hday, hi, hj, hdiv, hmod, hflat]
  · simp [CRPS_2d, CRPS_1d, hday, hi, hj, hdiv, hmod, hflat]
  · simp [CRPS_2d]
  · simp [CRPS_2d]
  · simp [CRPS_2d, vSub]
  · intro hm
    refine ⟨?_, ?_, ?_⟩ <;> simp [CRPS_2d, hm, vSub]

/-- C6 witness: a `1 × (1 × 2)` grid with one ensemble member, applied at
the in-range cell `(0, 0, 1)` with the mask `j = 0`. -/
theorem CRPS_2d_refines_witness :
    ((CRPS_2d 1 1 1 2 (fun _ _ _ => Val.num 3) (fun _ _ _ _ => Val.num 5)
        (some fun _ _ => true)).2.1 0 0 1 =
      (CRPS_1d 1 1 (1 * 2)
        (fun d g => (fun _ _ _ => Val.num 3 : ℕ → ℕ → ℕ → Val) d (g / 2) (g % 2))
        (fun d en g => (fun _ _ _ _ => Val.num 5 : ℕ → ℕ → ℕ → ℕ → Val) d en (g / 2) (g % 2))).2.1
          0 (0 * 2 + 1) ∧
     (CRPS_2d 1 1 1 2 (fun _ _ _ => Val.num 3) (fun _ _ _ _ => Val.num 5)
        (some fun _ _ => true)).2.2 0 0 1 =
      (CRPS_1d 1 1 (1 * 2)
        (fun d g => (fun _ _ _ => Val.num 3 : ℕ → ℕ → ℕ → Val) d (g / 2) (g % 2))
        (fun d en g => (fun _ _ _ _ => Val.num 5 : ℕ → ℕ → ℕ → ℕ → Val) d en (g / 2) (g % 2))).2.2
          0 (0 * 2 + 1) ∧
     (CRPS_2d 1 1 1 2 (fun _ _ _ => Val.num 3) (fun _ _ _ _ => Val.num 5)
        (some fun _ _ => true)).1 0 0 1 =
      (CRPS_1d 1 1 (1 * 2)
        (fun d g => (fun _ _ _ => Val.num 3 : ℕ → ℕ → ℕ → Val) d (g / 2) (g % 2))
        (fun d en g => (fun _ _ _ _ => Val.num 5 : ℕ → ℕ → ℕ → ℕ → Val) d en (g / 2) (g % 2))).1
          0 (0 * 2 + 1)) ∧
    ((CRPS_2d 1 1 1 2 (fun _ _ _ => Val.num 3) (fun _ _ _ _ => Val.num 5)
        (some fun _ _ => false)).2.1 0 0 1 = Val.nan ∧
     (CRPS_2d 1 1 1 2 (fun _ _ _ => Val.num 3) (fun _ _ _ _ => Val.num 5)
        (some fun _ _ => false)).2.2 0 0 1 = Val.nan ∧
     (CRPS_2d 1 1 1 2 (fun _ _ _ => Val.num 3) (fun _ _ _ _ => Val.num 5)
        (some fun _ _ => false)).1 0 0 1 = Val.nan) ∧
    ((fun _ j => decide (j = 0) : ℕ → ℕ → Bool) 0 1 = false →
      (CRPS_2d 1 1 1 2 (fun _ _ _ => Val.num 3) (fun _ _ _ _ => Val.num 5)
        (some fun _ j => decide (j = 0))).2.1 0 0 1 = Val.nan ∧
      (CRPS_2d 1 1 1 2 (fun _ _ _ => Val.num 3) (fun _ _ _ _ => Val.num 5)
        (some fun _ j => decide (j = 0))).2.2 0 0 1 = Val.nan ∧
      (CRPS_2d 1 1 1 2 (fun _ _ _ => Val.num 3) (fun _ _ _ _ => Val.num 5)
        (some fun _ j => decide (j = 0))).1 0 0 1 = Val.nan) ∧
    CRPS_2d 1 1 1 2 (fun _ _ _ => Val.num 3) (fun _ _ _ _ => Val.num 5) none =
      CRPS_2d 1 1 1 2 (fun _ _ _ => Val.num 3) (fun _ _ _ _ => Val.num 5)
        (some fun _ _ => true) :=
  CRPS_2d_refines 1 1 1 2 (fun _ _ _ => Val.num 3) (fun _ _ _ _ => Val.num 5)
    (fun _ j => decide (j = 0)) 0 0 1 (by decide) (by decide) (by decide)

/-- C7: for every in-range cell, `BS_binary_1d` returns
`(obs − mean_over_members(ens))²` with a single division by the member
count; `BS_binary_1d_nan` yields NaN where the observation is NaN (reading
no ensemble value there) and agrees with `BS_binary_1d` everywhere else. -/
theorem BS_binary_1d_cell_spec (N_days EN N_grids : ℕ) (y_true : ℕ → ℕ → Val)
    (y_ens : ℕ → ℕ → ℕ → Val) (day n : ℕ)
    (hday : day < N_days) (hn : n < N_grids) :
    BS_binary_1d N_days EN N_grids y_true y_ens day n =
      vSq (vSub (y_true day n)
        (vDivN (∑ en ∈ Finset.range EN, y_ens day en n) EN)) ∧
    ((y_true day n).isnan = true →
      BS_binary_1d_nan N_days EN N_grids y_true y_ens day n = Val.nan ∧
      ∀ y_ens' : ℕ → ℕ → ℕ → Val,
        BS_binary_1d_nan N_days EN N_grids y_true y_ens' day n =
          BS_binary_1d_nan N_days EN N_grids y_true y_ens day n) ∧
    ((y_true day n).isnan = false →
      BS_binary_1d_nan N_days EN N_grids y_true y_ens day n =
        BS_binary_1d N_days EN N_grids y_true y_ens day n) := by
  refine ⟨?_, ?_, ?_⟩
  · rw [BS_binary_1d, if_pos ⟨hday, hn⟩, vListSum_map_range]
  · intro h
    constructor
    · simp [BS_binary_1d_nan, hday, hn, h]
    · intro y_ens'
      simp [BS_binary_1d_nan, hday, hn, h]
  · intro h
    simp [BS_binary_1d_nan, BS_binary_1d, hday, hn, h]

/-- C7 witness: the spec's concrete scenario `obs = 1`, four ensemble
members with mean `0.25`, at cell `(0, 0)`. -/
theorem BS_binary_1d_cell_spec_witness :
    BS_binary_1d 1 4 1 (fun _ _ => Val.num 1)
        (fun _ en _ => if en = 0 then Val.num 1 else Val.num 0) 0 0 =
      vSq (vSub (Val.num 1)
        (vDivN (∑ en ∈ Finset.range 4,
          (if en = 0 then Val.num 1 else Val.num 0)) 4)) ∧
    (((fun _ _ => Val.num 1 : ℕ → ℕ → Val) 0 0).isnan = true →
      BS_binary_1d_nan 1 4 1 (fun _ _ => Val.num 1)
        (fun _ en _ => if en = 0 then Val.num 1 else Val.num 0) 0 0 = Val.nan ∧
      ∀ y_ens' : ℕ → ℕ → ℕ → Val,
        BS_binary_1d_nan 1 4 1 (fun _ _ => Val.num 1) y_ens' 0 0 =
          BS_binary_1d_nan 1 4 1 (fun _ _ => Val.num 1)
            (fun _ en _ => if en = 0 then Val.num 1 else Val.num 0) 0 0) ∧
    (((fun _ _ => Val.num 1 : ℕ → ℕ → Val) 0 0).isnan = false →
      BS_binary_1d_nan 1 4 1 (fun _ _ => Val.num 1)
        (fun _ en _ => if en = 0 then Val.num 1 else Val.num 0) 0 0 =
      BS_binary_1d 1 4 1 (fun _ _ => Val.num 1)
        (fun _ en _ => if en = 0 then Val.num 1 else Val.num 0) 0 0) :=
  BS_binary_1d_cell_spec 1 4 1 (fun _ _ => Val.num 1)
    (fun _ en _ => if en = 0 then Val.num 1 else Val.num 0) 0 0
    (by decide) (by decide)

/-- C8: for every in-range cell (with at least one quantile bin): if the
observation lies below every CDF value of the grid point, the insertion
index is 0, surviving the clamp, and the indicator is all-ones over the
`num_bins` levels, which is what the cell's CRPS integrates against; if
the observation lies above every CDF value, the clamped step is
`num_bins - 1`. -/
theorem CRPS_1d_from_quantiles_extreme_steps (q_bins : List ℚ) (CDFs : ℕ → ℕ → ℚ)
    (N_days N_grids : ℕ) (y_true : ℕ → ℕ → ℚ) (day n : ℕ)
    (hday : day < N_days) (hn : n < N_grids) (hlen : 1 ≤ q_bins.length) :
    ((∀ k, k < q_bins.length → y_true day n < CDFs k n) →
      searchsorted_left ((List.range (q_bins.length - 1 + 1)).map fun k => CDFs k n)
        (y_true day n) = 0 ∧
      clamp_step 0 (q_bins.length - 1) = 0 ∧
      H_func (q_bins.length - 1 + 1) 0 =
        (List.range (q_bins.length - 1 + 1)).map (fun _ => (1:ℚ)) ∧
      CRPS_1d_from_quantiles q_bins CDFs N_days N_grids y_true day n =
        Val.num (np_trapz ((q_bins.zip ((List.range (q_bins.length - 1 + 1)).map
          (fun _ => (1:ℚ)))).map fun p => (p.1 - p.2)^2)
          ((List.range (q_bins.length - 1 + 1)).map fun k => CDFs k n))) ∧
    ((∀ k, k < q_bins.length → CDFs k n < y_true day n) →
      clamp_step (searchsorted_left
        ((List.range (q_bins.length - 1 + 1)).map fun k => CDFs k n)
        (y_true day n)) (q_bins.length - 1) = q_bins.length - 1) := by
  have hL1 : q_bins.length - 1 + 1 = q_bins.length := by omega
  constructor
  · intro hbelow
    have hss : searchsorted_left
        ((List.range (q_bins.length - 1 + 1)).map fun k => CDFs k n) (y_true day n) = 0 := by
      unfold searchsorted_left
      refine List.countP_eq_zero.2 ?_
      intro x hx
      rcases List.mem_map.1 hx with ⟨k, hk, rfl⟩
      have hk' : k < q_bins.length := by rw [← hL1]; exact List.mem_range.1 hk
      simp only [decide_eq_true_eq]
      exact not_lt.2 (le_of_lt (hbelow k hk'))
    have hH : H_func (q_bins.length - 1 + 1) 0 =
        (List.range (q_bins.length - 1 + 1)).map (fun _ => (1:ℚ)) := by
      simp [H_func]
    refine ⟨hss, by simp [clamp_step], hH, ?_⟩
    simp only [CRPS_1d_from_quantiles, hday, hn, and_self, if_true, hss]
    rw [show clamp_step 0 (q_bins.length - 1) = 0 by simp [clamp_step], hH]
  · intro habove
    have hss : searchsorted_left
        ((List.range (q_bins.length - 1 + 1)).map fun k => CDFs k n) (y_true day n) =
        q_bins.length - 1 + 1 := by
      unfold searchsorted_left
      have hall : ∀ x ∈ (List.range (q_bins.length - 1 + 1)).map fun k => CDFs k n,
          (fun x => decide (x < y_true day n)) x = true := by
        intro x hx
        rcases List.mem_map.1 hx with ⟨k, hk, rfl⟩
        have hk' : k < q_bins.length := by rw [← hL1]; exact List.mem_range.1 hk
        simp only [decide_eq_true_eq]
        exact habove k hk'
      rw [List.countP_eq_length.2 hall]
      simp
    rw [hss]
    simp [clamp_step]

/-- C8 witness: `q_bins = [0, 1]`, CDF column `[1, 2]`, observation `0`
(below every CDF value), at cell `(0, 0)`. -/
theorem CRPS_1d_from_quantiles_extreme_steps_witness :
    ((∀ k, k < [(0:ℚ), 1].length → (0:ℚ) < ((k:ℚ) + 1)) →
      searchsorted_left ((List.range ([(0:ℚ), 1].length - 1 + 1)).map fun k => ((k:ℚ) + 1))
        (0:ℚ) = 0 ∧
      clamp_step 0 ([(0:ℚ), 1].length - 1) = 0 ∧
      H_func ([(0:ℚ), 1].length - 1 + 1) 0 =
        (List.range ([(0:ℚ), 1].length - 1 + 1)).map (fun _ => (1:ℚ)) ∧
      CRPS_1d_from_quantiles [(0:ℚ), 1] (fun k _ => (k:ℚ) + 1) 1 1 (fun _ _ => (0:ℚ)) 0 0 =
        Val.num (np_trapz (([(0:ℚ), 1].zip ((List.range ([(0:ℚ), 1].length - 1 + 1)).map
          (fun _ => (1:ℚ)))).map fun p => (p.1 - p.2)^2)
          ((List.range ([(0:ℚ), 1].length - 1 + 1)).map fun k => ((k:ℚ) + 1)))) ∧
    ((∀ k, k < [(0:ℚ), 1].length → ((k:ℚ) + 1) < (0:ℚ)) →
      clamp_step (searchsorted_left
        ((List.range ([(0:ℚ), 1].length - 1 + 1)).map fun k => ((k:ℚ) + 1))
        (0:ℚ)) ([(0:ℚ), 1].length - 1) = [(0:ℚ), 1].length - 1) :=
  CRPS_1d_from_quantiles_extreme_steps [(0:ℚ), 1] (fun k _ => (k:ℚ) + 1) 1 1
    (fun _ _ => (0:ℚ)) 0 0 (by decide) (by decide) (by decide)

/-- C9: with at least one ensemble member, the divisor `2·EN²` of SPREAD
and the divisor `EN` of the ensemble mean are nonzero, so the
division-by-zero branch of `vDivN` is unreachable and `CRPS_1d`,
`CRPS_1d_nan`, `BS_binary_1d`, `BS_binary_1d_nan` and `CRPS_2d` produce a
finite (non-NaN) value at every computed cell whose inputs are finite. -/
theorem kernels_total (N_day EN N_grids : ℕ) (y_true : ℕ → ℕ → Val)
    (y_ens : ℕ → ℕ → ℕ → Val) (day n : ℕ) (hEN : 1 ≤ EN)
    (hday : day < N_day) (hn : n < N_grids)
    (hobs : (y_true day n).isnan = false)
    (hens : ∀ en, en < EN → (y_ens day en n).isnan = false) :
    spread_norm EN ≠ 0 ∧ EN ≠ 0 ∧
    (CRPS_1d N_day EN N_grids y_true y_ens).2.1 day n ≠ Val.nan ∧
    (CRPS_1d N_day EN N_grids y_true y_ens).2.2 day n ≠ Val.nan ∧
    (CRPS_1d N_day EN N_grids y_true y_ens).1 day n ≠ Val.nan ∧
    (CRPS_1d_nan N_day EN N_grids y_true y_ens).2.1 day n ≠ Val.nan ∧
    (CRPS_1d_nan N_day EN N_grids y_true y_ens).2.2 day n ≠ Val.nan ∧
    (CRPS_1d_nan N_day EN N_grids y_true y_ens).1 day n ≠ Val.nan ∧
    BS_binary_1d N_day EN N_grids y_true y_ens day n ≠ Val.nan ∧
    BS_binary_1d_nan N_day EN N_grids y_true y_ens day n ≠ Val.nan ∧
    (∀ (Nx Ny : ℕ) (y_true2 : ℕ → ℕ → ℕ → Val) (y_ens2 : ℕ → ℕ → ℕ → ℕ → Val)
      (i j : ℕ), i < Nx → j < Ny →
      (y_true2 day i j).isnan = false →
      (∀ en, en < EN → (y_ens2 day en i j).isnan = false) →
      (CRPS_2d N_day EN Nx Ny y_true2 y_ens2 none).2.1 day i j ≠ Val.nan ∧
      (CRPS_2d N_day EN Nx Ny y_true2 y_ens2 none).2.2 day i j ≠ Val.nan ∧
      (CRPS_2d N_day EN Nx Ny y_true2 y_ens2 none).1 day i j ≠ Val.nan) := by
  have hEN0 : EN ≠ 0 := by omega
  have hM : spread_norm EN ≠ 0 := by
    simp only [spread_norm]
    positivity
  have hobs' : y_true day n ≠ Val.nan := (isnan_eq_false_iff _).1 hobs
  have hens' : ∀ en, en < EN → y_ens day en n ≠ Val.nan := by
    intro en hen
    exact (isnan_eq_false_iff _).1 (hens en hen)
  have hMAE : (CRPS_1d N_day EN N_grids y_true y_ens).2.1 day n ≠ Val.nan := by
    show (if day < N_day ∧ n < N_grids then
        npMean ((List.range EN).map fun en =>
          vAbs (vSub (y_true day n) (y_ens day en n)))
      else Val.nan) ≠ Val.nan
    rw [if_pos ⟨hday, hn⟩]
    exact npMean_abs_ne_nan _ _ EN hEN0 hobs' hens'
  have hSPREAD : (CRPS_1d N_day EN N_grids y_true y_ens).2.2 day n ≠ Val.nan := by
    show (if day < N_day ∧ n < N_grids then
        vDivN ((List.range EN).foldl (fun acc en1 =>
          (List.range EN).foldl (fun acc2 en2 =>
            acc2 + vAbs (vSub (y_ens day en1 n) (y_ens day en2 n))) acc) 0)
          (spread_norm EN)
      else Val.nan) ≠ Val.nan
    rw [if_pos ⟨hday, hn⟩]
    exact spread_loop_ne_nan (fun en => y_ens day en n) EN hEN0 hens'
  have hMAE' : (CRPS_1d_nan N_day EN N_grids y_true y_ens).2.1 day n ≠ Val.nan := by
    show (if day < N_day ∧ n < N_grids then
        if (y_true day n).isnan then Val.nan
        else npMean ((List.range EN).map fun en =>
          vAbs (vSub (y_true day n) (y_ens day en n)))
      else Val.nan) ≠ Val.nan
    rw [if_pos ⟨hday, hn⟩, hobs]
    exact npMean_abs_ne_nan _ _ EN hEN0 hobs' hens'
  have hSPREAD' : (CRPS_1d_nan N_day EN N_grids y_true y_ens).2.2 day n ≠ Val.nan := by
    show (if day < N_day ∧ n < N_grids then
        if (y_true day n).isnan then Val.nan
        else vDivN ((List.range EN).foldl (fun acc en1 =>
          (List.range EN).foldl (fun acc2 en2 =>
            acc2 + vAbs (vSub (y_ens day en1 n) (y_ens day en2 n))) acc) 0)
          (spread_norm EN)
      else Val.nan) ≠ Val.nan
    rw [if_pos ⟨hday, hn⟩, hobs]
    exact spread_loop_ne_nan (fun en => y_ens day en n) EN hEN0 hens'
  have hBS : BS_binary_1d N_day EN N_grids y_true y_ens day n ≠ Val.nan := by
    rw [BS_binary_1d, if_pos ⟨hday, hn⟩]
    exact bs_cell_ne_nan _ _ EN hEN0 hobs' hens'
  have hBSn : BS_binary_1d_nan N_day EN N_grids y_true y_ens day n ≠ Val.nan := by
    rw [BS_binary_1d_nan, if_pos ⟨hday, hn⟩, hobs]
    simp only [Bool.false_eq_true, if_false]
    exact bs_cell_ne_nan _ _ EN hEN0 hobs' hens'
  refine ⟨hM, hEN0, hMAE, hSPREAD, vSub_ne_nan hMAE hSPREAD,
    hMAE', hSPREAD', vSub_ne_nan hMAE' hSPREAD', hBS, hBSn, ?_⟩
  intro Nx Ny y_true2 y_ens2 i j hi hj hobs2 hens2
  have hobs2' : y_true2 day i j ≠ Val.nan := (isnan_eq_false_iff _).1 hobs2
  have hens2' : ∀ en, en < EN → y_ens2 day en i j ≠ Val.nan := by
    intro en hen
    exact (isnan_eq_false_iff _).1 (hens2 en hen)
  have hMAE2 : (CRPS_2d N_day EN Nx Ny y_true2 y_ens2 none).2.1 day i j ≠ Val.nan := by
    show (if i < Nx ∧ j < Ny ∧ (fun _ _ => true : ℕ → ℕ → Bool) i j = true ∧ day < N_day then
        npMean ((List.range EN).map fun en =>
          vAbs (vSub (y_true2 day i j) (y_ens2 day en i j)))
      else Val.nan) ≠ Val.nan
    rw [if_pos ⟨hi, hj, rfl, hday⟩]
    exact npMean_abs_ne_nan _ _ EN hEN0 hobs2' hens2'
  have hSPREAD2 : (CRPS_2d N_day EN Nx Ny y_true2 y_ens2 none).2.2 day i j ≠ Val.nan := by
    show (if i < Nx ∧ j < Ny ∧ (fun _ _ => true : ℕ → ℕ → Bool) i j = true ∧ day < N_day then
        vDivN ((List.range EN).foldl (fun acc en1 =>
          (List.range EN).foldl (fun acc2 en2 =>
            acc2 + vAbs (vSub (y_ens2 day en1 i j) (y_ens2 day en2 i j))) acc) 0)
          (spread_norm EN)
      else Val.nan) ≠ Val.nan
    rw [if_pos ⟨hi, hj, rfl, hday⟩]
    exact spread_loop_ne_nan (fun en => y_ens2 day en i j) EN hEN0 hens2'
  exact ⟨hMAE2, hSPREAD2, vSub_ne_nan hMAE2 hSPREAD2⟩

/-- C9 witness: one day, one member, one grid point, all inputs zero. -/
theorem kernels_total_witness :
    spread_norm 1 ≠ 0 ∧ (1:ℕ) ≠ 0 ∧
    (CRPS_1d 1 1 1 (fun _ _ => Val.num 0) (fun _ _ _ => Val.num 0)).2.1 0 0 ≠ Val.nan ∧
    (CRPS_1d 1 1 1 (fun _ _ => Val.num 0) (fun _ _ _ => Val.num 0)).2.2 0 0 ≠ Val.nan ∧
    (CRPS_1d 1 1 1 (fun _ _ => Val.num 0) (fun _ _ _ => Val.num 0)).1 0 0 ≠ Val.nan ∧
    (CRPS_1d_nan 1 1 1 (fun _ _ => Val.num 0) (fun _ _ _ => Val.num 0)).2.1 0 0 ≠ Val.nan ∧
    (CRPS_1d_nan 1 1 1 (fun _ _ => Val.num 0) (fun _ _ _ => Val.num 0)).2.2 0 0 ≠ Val.nan ∧
    (CRPS_1d_nan 1 1 1 (fun _ _ => Val.num 0) (fun _ _ _ => Val.num 0)).1 0 0 ≠ Val.nan ∧
    BS_binary_1d 1 1 1 (fun _ _ => Val.num 0) (fun _ _ _ => Val.num 0) 0 0 ≠ Val.nan ∧
    BS_binary_1d_nan 1 1 1 (fun _ _ => Val.num 0) (fun _ _ _ => Val.num 0) 0 0 ≠ Val.nan ∧
    (∀ (Nx Ny : ℕ) (y_true2 : ℕ → ℕ → ℕ → Val) (y_ens2 : ℕ → ℕ → ℕ → ℕ → Val)
      (i j : ℕ), i < Nx → j < Ny →
      (y_true2 0 i j).isnan = false →
      (∀ en, en < 1 → (y_ens2 0 en i j).isnan = false) →
      (CRPS_2d 1 1 Nx Ny y_true2 y_ens2 none).2.1 0 i j ≠ Val.nan ∧
      (CRPS_2d 1 1 Nx Ny y_true2 y_ens2 none).2.2 0 i j ≠ Val.nan ∧
      (CRPS_2d 1 1 Nx Ny y_true2 y_ens2 none).1 0 i j ≠ Val.nan) :=
  kernels_total 1 1 1 (fun _ _ => Val.num 0) (fun _ _ _ => Val.num 0) 0 0
    (by decide) (by decide) (by decide) (by decide) (fun en _ => rfl)

/-- C10: when the flattened slice behind row `k` has at least one valid
value, every replicate entry of `score_bootstrap_1d` is a finite value
lying between every lower bound and every upper bound of the valid values
(in particular between their minimum and maximum), being a mean of draws
from those values alone. -/
theorem score_bootstrap_1d_replicate_bounds (A K bootstrap_n : ℕ)
    (data : ℕ → ℕ → Val) (rng : ℕ → ℕ → ℕ → ℕ) (k b : ℕ)
    (hk : k < K) (hb : b < bootstrap_n)
    (hL : 0 < ((ravel_slice A data k).filterMap vToQ).length) :
    ∃ q : ℚ, score_bootstrap_1d A K data bootstrap_n rng k b = Val.num q ∧
      (∀ m : ℚ, (∀ x ∈ (ravel_slice A data k).filterMap vToQ, m ≤ x) → m ≤ q) ∧
      (∀ M : ℚ, (∀ x ∈ (ravel_slice A data k).filterMap vToQ, x ≤ M) → q ≤ M) := by
  set valid : List ℚ := (ravel_slice A data k).filterMap vToQ with hvalid
  set L : ℕ := valid.length with hLdef
  set picks : List ℚ :=
    (List.range L).map (fun j => valid.getD (rng k b j % L) 0) with hpicks
  have hmem : ∀ x ∈ picks, x ∈ valid := by
    intro x hx
    rcases List.mem_map.1 hx with ⟨j, _, rfl⟩
    have hlt : rng k b j % L < L := Nat.mod_lt _ hL
    rw [List.getD_eq_getElem _ _ hlt]
    exact List.getElem_mem _
  have hlen : picks.length = L := by simp [hpicks]
  have hL0 : (0 : ℚ) < (L : ℚ) := by exact_mod_cast hL
  refine ⟨picks.sum / (L : ℚ), ?_, ?_, ?_⟩
  · show (if k < K ∧ b < bootstrap_n then npMeanQ picks else Val.nan) = _
    rw [if_pos ⟨hk, hb⟩]
    simp only [npMeanQ, hlen]
    rw [if_neg (by omega)]
  · intro m hm
    have h1 := List.card_nsmul_le_sum picks m (fun x hx => hm x (hmem x hx))
    rw [nsmul_eq_mul, hlen] at h1
    rw [le_div_iff hL0]
    linarith
  · intro M hM
    have h2 := List.sum_le_card_nsmul picks M (fun x hx => hM x (hmem x hx))
    rw [nsmul_eq_mul, hlen] at h2
    rw [div_le_iff hL0]
    linarith

/-- C10 witness: the slice `[NaN, 3]` (valid values `[3]`), one
replicate, the zero oracle, at `(k, b) = (0, 0)`. -/
theorem score_bootstrap_1d_replicate_bounds_witness :
    ∃ q : ℚ, score_bootstrap_1d 2 1 (fun a _ => if a = 0 then Val.nan else Val.num 3) 1
        (fun _ _ _ => 0) 0 0 = Val.num q ∧
      (∀ m : ℚ, (∀ x ∈ (ravel_slice 2
        (fun a _ => if a = 0 then Val.nan else Val.num 3) 0).filterMap vToQ, m ≤ x) →
        m ≤ q) ∧
      (∀ M : ℚ, (∀ x ∈ (ravel_slice 2
        (fun a _ => if a = 0 then Val.nan else Val.num 3) 0).filterMap vToQ, x ≤ M) →
        q ≤ M) :=
  score_bootstrap_1d_replicate_bounds 2 1 1
    (fun a _ => if a = 0 then Val.nan else Val.num 3) (fun _ _ _ => 0) 0 0
    (by decide) (by decide) (by decide)
